import Mathlib

/-!
Verification development for the micro-breaks-map MCP server.

The server (mcp-server TypeScript sources) exposes four tools over an MCP
dispatch shell: `find_break_spots`, `generate_walk_route`,
`suggest_soundtrack`, `generate_coach_message`.  We give a shallow
embedding of the server logic:

* JavaScript numbers are modelled as rationals (`ℚ`); the arithmetic in the
  program (adding a constant offset) is exact at this granularity.
* A possibly-`undefined` JavaScript value is an `Option`.
* JavaScript truthiness of the `||` operator on strings and numbers is
  modelled explicitly (`jsOrStr`, `jsOrNum`): `undefined`, the empty string
  and the number `0` are falsy.
* The outbound Overpass HTTP call is modelled by a `NetResult` oracle
  passed to `queryOverpass`: either the call throws (`failure`) or it
  returns a payload whose `elements` field may be absent.
* JSON serialisation of structured results is abstracted: a response
  carries the structured payload itself rather than its JSON text.
-/

namespace MicroBreaks

/-- Truthiness-aware `a || b` for an optional string `a`
(JS: `undefined` and `""` are falsy). -/
def jsOrStr (a : Option String) (b : String) : String :=
  match a with
  | none => b
  | some s => if s = "" then b else s

/-- Truthiness-aware `a || b` for an optional number `a`
(JS: `undefined` and `0` are falsy; the result may itself be absent). -/
def jsOrNum (a : Option ℚ) (b : Option ℚ) : Option ℚ :=
  match a with
  | none => b
  | some q => if q = 0 then b else some q

/-- Substring test on character lists, modelling JS `String.includes`:
`isPrefixOfL pat s` holds when `pat` is an initial segment of `s`. -/
def isPrefixOfL : List Char → List Char → Bool
  | [], _ => true
  | _ :: _, [] => false
  | p :: ps, c :: cs => p == c && isPrefixOfL ps cs

/-- Predicate `containsSub pat s`: `pat` occurs contiguously somewhere in `s`. -/
def containsSub (pat : List Char) : List Char → Bool
  | [] => isPrefixOfL pat []
  | c :: cs => isPrefixOfL pat (c :: cs) || containsSub pat cs

/-- JS `s.includes(pat)`. -/
def strContains (s pat : String) : Bool :=
  containsSub pat.data s.data

/-- JS `s.toLowerCase()`, modelled character-wise. -/
def strToLower (s : String) : String :=
  String.mk (s.data.map Char.toLower)

/-- The OSM tags of an element that matter to the server
(`tags.name`, `tags["addr:street"]`, `tags["addr:housenumber"]`). -/
structure Tags where
  name : Option String
  addrStreet : Option String
  addrHousenumber : Option String
deriving DecidableEq, Repr

/-- The `center` point Overpass attaches to ways/relations under
`out center`. -/
structure Center where
  lat : ℚ
  lon : ℚ
deriving DecidableEq, Repr

/-- A raw Overpass element as consumed by `formatPlace`. -/
structure OsmElement where
  id : ℕ
  tags : Option Tags
  center : Option Center
  lat : Option ℚ
  lon : Option ℚ
deriving DecidableEq, Repr

/-- Place categories produced by the server (park / quiet_cafe). -/
inductive PlaceType
  | park
  | quiet_cafe
deriving DecidableEq, Repr

/-- The `location` field of a formatted place; each coordinate may be
absent when neither the center nor the element carries it. -/
structure Location where
  lat : Option ℚ
  lng : Option ℚ
deriving DecidableEq, Repr

/-- A formatted place as returned by `find_break_spots`. -/
structure Place where
  name : String
  type : PlaceType
  rating : ℚ
  address : String
  location : Location
  place_id : String
  estimated_walk_time : String
deriving DecidableEq, Repr

/-- The default display name per category: the server picks
"Parque sin nombre" for a park and "Café" otherwise. -/
def defaultName (ty : PlaceType) : String :=
  if ty = PlaceType.park then "Parque sin nombre" else "Café"

/-- The `name` tag of an element, when present (`p.tags?.name`). -/
def tagName (p : OsmElement) : Option String :=
  p.tags.bind Tags.name

/-- The `formatPlace` helper from the server: maps a raw Overpass element to a
`Place`.  The `name`, `location` and `address` computations reproduce the
JS `||`/ternary truthiness of the source. -/
def formatPlace (p : OsmElement) (ty : PlaceType) : Place :=
  { name := jsOrStr (tagName p) (defaultName ty)
    type := ty
    rating := 4.5
    address :=
      match p.tags with
      | none => "Cerca de ti"
      | some t =>
        match t.addrStreet with
        | none => "Cerca de ti"
        | some st =>
          if st = "" then "Cerca de ti"
          else st ++ " " ++ jsOrStr t.addrHousenumber ""
    location :=
      { lat := jsOrNum (p.center.map Center.lat) p.lat
        lng := jsOrNum (p.center.map Center.lon) p.lon }
    place_id := toString p.id
    estimated_walk_time := "5-10 min" }

/-- The category of an Overpass query (park / cafe). -/
inductive OverpassType
  | park
  | cafe
deriving DecidableEq, Repr

/-- Outcome of the outbound HTTP POST to the Overpass interpreter:
either the call throws, or it returns a body whose `elements` field may
be absent. -/
inductive NetResult
  | failure
  | ok (elements : Option (List OsmElement))
deriving DecidableEq, Repr

/-- The `queryOverpass` helper from the server.  The query text built from
`lat`/`lng`/`radius`/`ty` only parameterises the HTTP call, whose outcome
is the oracle `net`; a thrown error is caught and becomes `[]`, and
`response.data.elements || []` defaults an absent field to `[]`. -/
def queryOverpass (lat lng radius : ℚ) (ty : OverpassType) (net : NetResult) :
    List OsmElement :=
  match lat, lng, radius, ty, net with
  | _, _, _, _, NetResult.failure => []
  | _, _, _, _, NetResult.ok es => es.getD []

/-- The `formattedPlaces` list from the `find_break_spots` handler: at most five
parks then at most five cafes, each mapped through `formatPlace`. -/
def formattedPlaces (parks cafes : List OsmElement) : List Place :=
  (parks.take 5).map (fun p => formatPlace p PlaceType.park)
    ++ (cafes.take 5).map (fun c => formatPlace c PlaceType.quiet_cafe)

/-- Parsed arguments of `find_break_spots` (zod defaults already applied:
`maxDistanceMeters` defaults to 900, `timeWindowMinutes` to 30). -/
structure FindBreakSpotsArgs where
  lat : ℚ
  lng : ℚ
  maxDistanceMeters : ℚ
  timeWindowMinutes : ℚ
  mood : Option String
deriving DecidableEq, Repr

/-- The body of the `find_break_spots` handler, given the outcomes of the
two parallel Overpass queries: the formatted place list and the
human-readable count text. -/
def find_break_spots (parkNet cafeNet : NetResult) (a : FindBreakSpotsArgs) :
    List Place × String :=
  let parks := queryOverpass a.lat a.lng a.maxDistanceMeters OverpassType.park parkNet
  let cafes := queryOverpass a.lat a.lng a.maxDistanceMeters OverpassType.cafe cafeNet
  let places := formattedPlaces parks cafes
  (places, "Encontré " ++ toString places.length ++ " lugares cerca de ti.")

/-- A point of the generated walking route. -/
structure RoutePoint where
  lat : ℚ
  lng : ℚ
deriving DecidableEq, Repr

/-- The `generate_walk_route` handler body: the mock square route, the
echoed duration text and the fixed description. -/
def generate_walk_route (lat lng : ℚ) (timeWindowMinutes : ℤ) :
    List RoutePoint × String × String :=
  let offset : ℚ := 0.003
  ([{ lat := lat, lng := lng },
    { lat := lat + offset, lng := lng },
    { lat := lat + offset, lng := lng + offset },
    { lat := lat, lng := lng + offset },
    { lat := lat, lng := lng }],
   toString timeWindowMinutes ++ " min",
   "Ruta circular por el barrio")

/-- A soundtrack suggestion record. -/
structure SoundtrackSuggestion where
  title : String
  description : String
  type : String
  query : String
deriving DecidableEq, Repr

/-- The `suggest_soundtrack` handler body: lower-case the mood and pick a
fixed pair of records by substring match. -/
def suggest_soundtrack (mood : String) : List SoundtrackSuggestion :=
  let m := strToLower mood
  if strContains m "calma" || strContains m "tranquil" then
    [{ title := "Nature Sounds", description := "Sonidos de bosque y lluvia",
       type := "soundscape", query := "nature sounds" },
     { title := "Piano Chill", description := "Piano suave para desconectar",
       type := "playlist", query := "piano chill" }]
  else if strContains m "creativ" || strContains m "inspir" then
    [{ title := "Lofi Beats", description := "Ritmos suaves para fluir",
       type := "playlist", query := "lofi beats" },
     { title := "Classical Focus", description := "Música clásica estimulante",
       type := "playlist", query := "classical focus" }]
  else
    [{ title := "Acoustic Relax", description := "Guitarra acústica",
       type := "playlist", query := "acoustic relax" },
     { title := "Ambient Noise", description := "Ruido blanco suave",
       type := "soundscape", query := "ambient noise" }]

/-- The `generate_coach_message` handler body: note that, unlike
`suggest_soundtrack`, the mood is matched without lower-casing. -/
def generate_coach_message (name : Option String) (mood experience_info : String) :
    String :=
  let userName := jsOrStr name "ahí"
  if strContains mood "agotado" || strContains mood "bloqueada" then
    userName ++ ", respira profundo. Tómate estos minutos para ti. "
      ++ experience_info ++ " te ayudará a resetear."
  else if strContains mood "calma" then
    "Disfruta de la paz, " ++ userName ++ ". " ++ experience_info
      ++ " es perfecto para mantener esa serenidad."
  else
    "¡Vamos, " ++ userName ++ "! Un poco de aire fresco te vendrá genial. Mira: "
      ++ experience_info ++ "."

/-- The process-wide `lastWidgetData` slot.  It is assigned whole object
literals (`{}` initially, `{ places: ... }`, `{ route: ... }`), so its
states are exactly these three shapes. -/
inductive WidgetData
  | empty
  | withPlaces (places : List Place)
  | withRoute (route : List RoutePoint)
deriving DecidableEq, Repr

/-- The arguments payload of a `tools/call` request, already past zod
parsing; a payload whose shape does not match the called tool stands for
a zod parse failure. -/
inductive ToolArgs
  | forFind (a : FindBreakSpotsArgs)
  | forRoute (lat lng : ℚ) (timeWindowMinutes : ℤ) (preference : Option String)
  | forSoundtrack (mood : String)
  | forCoach (name : Option String) (mood experience_info : String)
deriving DecidableEq, Repr

/-- The structured payload of a successful tool result (the JSON text the
server serialises it to is abstracted away). -/
inductive ToolResultPayload
  | placesResult (text : String) (places : List Place)
  | routeResult (route_points : List RoutePoint)
      (estimated_duration description : String)
  | soundtrackResult (suggestions : List SoundtrackSuggestion)
  | coachResult (message : String)
deriving DecidableEq, Repr

/-- The JSON-RPC response of the `/mcp` `tools/call` branch: a `result`
envelope, or the HTTP-500 error envelope produced by the catch-all
(`code: -32603`, carrying the thrown error message). -/
inductive McpResponse
  | ok (result : ToolResultPayload)
  | err (code : ℤ) (message : String)
deriving DecidableEq, Repr

/-- Whether a response is a normal (non-error) result. -/
def McpResponse.isOk : McpResponse → Bool
  | McpResponse.ok _ => true
  | McpResponse.err _ _ => false

/-- The place list of a `find_break_spots` result (empty for anything
else). -/
def responsePlaces : McpResponse → List Place
  | McpResponse.ok (ToolResultPayload.placesResult _ ps) => ps
  | _ => []

/-- The `tools/call` branch of the `/mcp` POST handler: dispatch on the
tool name, thread the `lastWidgetData` slot, and turn any thrown error
(zod parse failure, unknown tool) into the catch-all error response.
`parkNet`/`cafeNet` are the outcomes of the two Overpass calls issued by
`find_break_spots`. -/
def handleToolCall (parkNet cafeNet : NetResult) (toolName : String)
    (args : ToolArgs) (st : WidgetData) : WidgetData × McpResponse :=
  if toolName = "find_break_spots" then
    match args with
    | ToolArgs.forFind a =>
      let r := find_break_spots parkNet cafeNet a
      (WidgetData.withPlaces r.1,
       McpResponse.ok (ToolResultPayload.placesResult r.2 r.1))
    | _ => (st, McpResponse.err (-32603) "Invalid arguments")
  else if toolName = "generate_walk_route" then
    match args with
    | ToolArgs.forRoute lat lng t _ =>
      let r := generate_walk_route lat lng t
      (WidgetData.withRoute r.1,
       McpResponse.ok (ToolResultPayload.routeResult r.1 r.2.1 r.2.2))
    | _ => (st, McpResponse.err (-32603) "Invalid arguments")
  else if toolName = "suggest_soundtrack" then
    match args with
    | ToolArgs.forSoundtrack mood =>
      (st, McpResponse.ok (ToolResultPayload.soundtrackResult
        (suggest_soundtrack mood)))
    | _ => (st, McpResponse.err (-32603) "Invalid arguments")
  else if toolName = "generate_coach_message" then
    match args with
    | ToolArgs.forCoach name mood e =>
      (st, McpResponse.ok (ToolResultPayload.coachResult
        (generate_coach_message name mood e)))
    | _ => (st, McpResponse.err (-32603) "Invalid arguments")
  else
    (st, McpResponse.err (-32603) ("Tool " ++ toolName ++ " not found"))

/-- A result of the SSE variant `CallToolRequest` handler: its catch
block turns a thrown error into a result flagged `isError: true` whose
text is `Error: <message>`. -/
inductive SseToolResult
  | ok (payload : ToolResultPayload)
  | error (text : String)
deriving DecidableEq, Repr

/-- Whether an SSE-variant result carries `isError: true`. -/
def SseToolResult.isErr : SseToolResult → Bool
  | SseToolResult.ok _ => false
  | SseToolResult.error _ => true

/-- The `CallToolRequest` handler of the SSE server variant: same four
tools and same bodies, no widget slot, errors reported in-band. -/
def handleCallToolRequest (parkNet cafeNet : NetResult) (toolName : String)
    (args : ToolArgs) : SseToolResult :=
  if toolName = "find_break_spots" then
    match args with
    | ToolArgs.forFind a =>
      let r := find_break_spots parkNet cafeNet a
      SseToolResult.ok (ToolResultPayload.placesResult r.2 r.1)
    | _ => SseToolResult.error "Error: Invalid arguments"
  else if toolName = "generate_walk_route" then
    match args with
    | ToolArgs.forRoute lat lng t _ =>
      let r := generate_walk_route lat lng t
      SseToolResult.ok (ToolResultPayload.routeResult r.1 r.2.1 r.2.2)
    | _ => SseToolResult.error "Error: Invalid arguments"
  else if toolName = "suggest_soundtrack" then
    match args with
    | ToolArgs.forSoundtrack mood =>
      SseToolResult.ok (ToolResultPayload.soundtrackResult
        (suggest_soundtrack mood))
    | _ => SseToolResult.error "Error: Invalid arguments"
  else if toolName = "generate_coach_message" then
    match args with
    | ToolArgs.forCoach name mood e =>
      SseToolResult.ok (ToolResultPayload.coachResult
        (generate_coach_message name mood e))
    | _ => SseToolResult.error "Error: Invalid arguments"
  else
    SseToolResult.error ("Error: Tool " ++ toolName ++ " not found")

/-! Concrete elements used to exercise the definitions. -/

/-- A way-style element whose Overpass `center` has latitude `0`
(a point on the equator) while the element also carries its own
coordinates. -/
def centerZeroElem : OsmElement :=
  { id := 7, tags := none, center := some { lat := 0, lon := 10 },
    lat := some 5, lon := some 6 }

/-- An element whose `name` tag is present but empty. -/
def emptyNameElem : OsmElement :=
  { id := 3,
    tags := some { name := some "", addrStreet := none, addrHousenumber := none },
    center := none, lat := some 1, lon := some 2 }

/-- An element with an ordinary non-empty `name` tag. -/
def namedElem : OsmElement :=
  { id := 4,
    tags := some { name := some "Central", addrStreet := none, addrHousenumber := none },
    center := none, lat := some 1, lon := some 2 }

/-! Helper lemmas about `formattedPlaces`. -/

theorem type_formatPlace (p : OsmElement) (ty : PlaceType) :
    (formatPlace p ty).type = ty := rfl

theorem cafe_beq_park : (PlaceType.quiet_cafe == PlaceType.park) = false := rfl

theorem park_beq_cafe : (PlaceType.park == PlaceType.quiet_cafe) = false := rfl

theorem countP_formattedPlaces_park (parks cafes : List OsmElement) :
    (formattedPlaces parks cafes).countP (fun p => p.type == PlaceType.park)
      = (parks.take 5).length := by
  unfold formattedPlaces
  rw [List.countP_append, List.countP_map, List.countP_map]
  simp only [Function.comp_def, type_formatPlace, cafe_beq_park]
  simp

theorem countP_formattedPlaces_cafe (parks cafes : List OsmElement) :
    (formattedPlaces parks cafes).countP (fun p => p.type == PlaceType.quiet_cafe)
      = (cafes.take 5).length := by
  unfold formattedPlaces
  rw [List.countP_append, List.countP_map, List.countP_map]
  simp only [Function.comp_def, type_formatPlace, park_beq_cafe]
  simp

theorem filter_formattedPlaces_park (parks cafes : List OsmElement) :
    (formattedPlaces parks cafes).filter (fun p => p.type == PlaceType.park)
      = (parks.take 5).map (fun p => formatPlace p PlaceType.park) := by
  unfold formattedPlaces
  rw [List.filter_append, List.filter_map, List.filter_map]
  simp only [Function.comp_def, type_formatPlace, cafe_beq_park]
  simp

theorem filter_formattedPlaces_cafe (parks cafes : List OsmElement) :
    (formattedPlaces parks cafes).filter (fun p => p.type == PlaceType.quiet_cafe)
      = (cafes.take 5).map (fun c => formatPlace c PlaceType.quiet_cafe) := by
  unfold formattedPlaces
  rw [List.filter_append, List.filter_map, List.filter_map]
  simp only [Function.comp_def, type_formatPlace, park_beq_cafe]
  simp

/-! Claim theorems. -/

/-- C1: for every coordinate, radius and category, a failing Overpass
call makes `queryOverpass` return the empty list, and a
`find_break_spots` call whose park (resp. cafe) query failed still
produces a normal (non-error) response whose place list has zero park
(resp. cafe) entries. -/
theorem query_failure_degrades_gracefully
    (lat lng radius : ℚ) (ty : OverpassType) (a : FindBreakSpotsArgs)
    (parkNet cafeNet : NetResult) (st : WidgetData) :
    queryOverpass lat lng radius ty NetResult.failure = []
    ∧ ((handleToolCall NetResult.failure cafeNet "find_break_spots"
          (ToolArgs.forFind a) st).2.isOk = true
       ∧ (responsePlaces (handleToolCall NetResult.failure cafeNet
            "find_break_spots" (ToolArgs.forFind a) st).2).countP
            (fun p => p.type == PlaceType.park) = 0)
    ∧ ((handleToolCall parkNet NetResult.failure "find_break_spots"
          (ToolArgs.forFind a) st).2.isOk = true
       ∧ (responsePlaces (handleToolCall parkNet NetResult.failure
            "find_break_spots" (ToolArgs.forFind a) st).2).countP
            (fun p => p.type == PlaceType.quiet_cafe) = 0) := by
  refine ⟨rfl, ⟨rfl, ?_⟩, ⟨rfl, ?_⟩⟩
  · show (find_break_spots NetResult.failure cafeNet a).1.countP _ = 0
    show (formattedPlaces [] _).countP _ = 0
    rw [countP_formattedPlaces_park]
    rfl
  · show (find_break_spots parkNet NetResult.failure a).1.countP _ = 0
    show (formattedPlaces _ []).countP _ = 0
    rw [countP_formattedPlaces_cafe]
    rfl

/-- C2: for every pair of raw result lists, the merged place list has at
most 5 park entries and at most 5 cafe entries, and its park (resp.
cafe) entries are exactly the first five raw parks (resp. cafes) in
order, parks placed before cafes. -/
theorem formattedPlaces_capped_at_five (parks cafes : List OsmElement) :
    (formattedPlaces parks cafes).countP (fun p => p.type == PlaceType.park) ≤ 5
    ∧ (formattedPlaces parks cafes).countP
        (fun p => p.type == PlaceType.quiet_cafe) ≤ 5
    ∧ (formattedPlaces parks cafes).filter (fun p => p.type == PlaceType.park)
        = (parks.take 5).map (fun p => formatPlace p PlaceType.park)
    ∧ (formattedPlaces parks cafes).filter
        (fun p => p.type == PlaceType.quiet_cafe)
        = (cafes.take 5).map (fun c => formatPlace c PlaceType.quiet_cafe)
    ∧ formattedPlaces parks cafes
        = (formattedPlaces parks cafes).filter (fun p => p.type == PlaceType.park)
          ++ (formattedPlaces parks cafes).filter
               (fun p => p.type == PlaceType.quiet_cafe) := by
  refine ⟨?_, ?_, filter_formattedPlaces_park parks cafes,
    filter_formattedPlaces_cafe parks cafes, ?_⟩
  · rw [countP_formattedPlaces_park]
    exact le_trans (List.length_take_le 5 parks) (le_refl 5)
  · rw [countP_formattedPlaces_cafe]
    exact le_trans (List.length_take_le 5 cafes) (le_refl 5)
  · rw [filter_formattedPlaces_park, filter_formattedPlaces_cafe]
    rfl

/-- C3: the claim that an area record always gets its center coordinate
fails on the code: JS `p.center?.lat || p.lat` treats a center latitude
of `0` as falsy, so `centerZeroElem` (center at latitude 0) receives a
location mixing its own latitude with the center longitude. -/
theorem formatPlace_center_zero_divergence :
    centerZeroElem.center = some { lat := 0, lon := 10 }
    ∧ (formatPlace centerZeroElem PlaceType.park).location
        = { lat := some 5, lng := some 10 }
    ∧ (formatPlace centerZeroElem PlaceType.park).location
        ≠ { lat := some 0, lng := some 10 } := by
  refine ⟨rfl, rfl, ?_⟩
  intro h
  have h5 : (some (5 : ℚ) : Option ℚ) = some 0 := congrArg Location.lat h
  simp at h5

/-- C4: a `tools/call` whose tool name is none of the four defined
operations yields the explicit not-found error response in the `/mcp`
dispatch shell (and the in-band error result in the SSE variant), never
a success result. -/
theorem unknown_tool_yields_error (toolName : String)
    (h1 : toolName ≠ "find_break_spots")
    (h2 : toolName ≠ "generate_walk_route")
    (h3 : toolName ≠ "suggest_soundtrack")
    (h4 : toolName ≠ "generate_coach_message")
    (args : ToolArgs) (parkNet cafeNet : NetResult) (st : WidgetData) :
    (handleToolCall parkNet cafeNet toolName args st).2
        = McpResponse.err (-32603) ("Tool " ++ toolName ++ " not found")
    ∧ (handleToolCall parkNet cafeNet toolName args st).2.isOk = false
    ∧ handleCallToolRequest parkNet cafeNet toolName args
        = SseToolResult.error ("Error: Tool " ++ toolName ++ " not found")
    ∧ (handleCallToolRequest parkNet cafeNet toolName args).isErr = true := by
  have e : handleToolCall parkNet cafeNet toolName args st
      = (st, McpResponse.err (-32603) ("Tool " ++ toolName ++ " not found")) := by
    simp [handleToolCall, h1, h2, h3, h4]
  have e2 : handleCallToolRequest parkNet cafeNet toolName args
      = SseToolResult.error ("Error: Tool " ++ toolName ++ " not found") := by
    simp [handleCallToolRequest, h1, h2, h3, h4]
  exact ⟨by rw [e], by rw [e]; rfl, e2, by rw [e2]; rfl⟩

/-- Witness for C4 at the concrete tool name `"foo"`. -/
theorem unknown_tool_yields_error_witness :
    (handleToolCall NetResult.failure NetResult.failure "foo"
        (ToolArgs.forSoundtrack "m") WidgetData.empty).2
      = McpResponse.err (-32603) ("Tool " ++ "foo" ++ " not found")
    ∧ (handleToolCall NetResult.failure NetResult.failure "foo"
        (ToolArgs.forSoundtrack "m") WidgetData.empty).2.isOk = false
    ∧ handleCallToolRequest NetResult.failure NetResult.failure "foo"
        (ToolArgs.forSoundtrack "m")
      = SseToolResult.error ("Error: Tool " ++ "foo" ++ " not found")
    ∧ (handleCallToolRequest NetResult.failure NetResult.failure "foo"
        (ToolArgs.forSoundtrack "m")).isErr = true :=
  unknown_tool_yields_error "foo" (by decide) (by decide) (by decide) (by decide)
    (ToolArgs.forSoundtrack "m") NetResult.failure NetResult.failure
    WidgetData.empty

/-- C5: the generated walk route is exactly the five-point closed square
loop offset by 0.003 degrees, its first point equals its last, the
geometry is independent of the time budget, and the duration text echoes
the time budget followed by " min". -/
theorem generate_walk_route_geometry (lat lng : ℚ) (t : ℤ) :
    (generate_walk_route lat lng t).1 =
      [{ lat := lat, lng := lng },
       { lat := lat + 0.003, lng := lng },
       { lat := lat + 0.003, lng := lng + 0.003 },
       { lat := lat, lng := lng + 0.003 },
       { lat := lat, lng := lng }]
    ∧ (generate_walk_route lat lng t).1.head? = some { lat := lat, lng := lng }
    ∧ (generate_walk_route lat lng t).1.getLast?
        = some { lat := lat, lng := lng }
    ∧ (∀ t₂ : ℤ, (generate_walk_route lat lng t).1
        = (generate_walk_route lat lng t₂).1)
    ∧ (generate_walk_route lat lng t).2.1 = toString t ++ " min" :=
  ⟨rfl, rfl, rfl, fun _ => rfl, rfl⟩

/-- C6: any mood whose lower-casing contains "calma" or "tranquil"
receives exactly the two calm-branch soundtrack records, in order. -/
theorem suggest_soundtrack_calm_branch (mood : String)
    (h : (strContains (strToLower mood) "calma"
          || strContains (strToLower mood) "tranquil") = true) :
    suggest_soundtrack mood =
      [{ title := "Nature Sounds", description := "Sonidos de bosque y lluvia",
         type := "soundscape", query := "nature sounds" },
       { title := "Piano Chill", description := "Piano suave para desconectar",
         type := "playlist", query := "piano chill" }] := by
  unfold suggest_soundtrack
  simp only [h, if_true]

/-- Witness for C6 at the mixed-case mood "Necesito CALMA". -/
theorem suggest_soundtrack_calm_branch_witness :
    suggest_soundtrack "Necesito CALMA" =
      [{ title := "Nature Sounds", description := "Sonidos de bosque y lluvia",
         type := "soundscape", query := "nature sounds" },
       { title := "Piano Chill", description := "Piano suave para desconectar",
         type := "playlist", query := "piano chill" }] :=
  suggest_soundtrack_calm_branch "Necesito CALMA" (by decide)

/-- C7 counterexample: the name argument is not interpolated verbatim
when it is the empty string — JS `name || "ahí"` treats `""` as falsy,
so the empty name is replaced by "ahí". -/
theorem coach_tired_empty_name_counterexample :
    generate_coach_message (some "") "Estoy agotado" "Un paseo"
      = "ahí, respira profundo. Tómate estos minutos para ti. Un paseo te ayudará a resetear."
    ∧ generate_coach_message (some "") "Estoy agotado" "Un paseo"
      ≠ ", respira profundo. Tómate estos minutos para ti. Un paseo te ayudará a resetear." := by
  constructor
  · decide
  · decide

/-- C7 (amended): with mood "Estoy agotado" the tired-branch template is
returned, interpolating the experience text verbatim and the name
verbatim when it is present and non-empty, with "ahí" substituted when
the name is absent or empty (`jsOrStr name "ahí"`). -/
theorem coach_tired_template (name : Option String) (e : String) :
    generate_coach_message name "Estoy agotado" e
      = jsOrStr name "ahí"
        ++ ", respira profundo. Tómate estos minutos para ti. "
        ++ e ++ " te ayudará a resetear." := by
  unfold generate_coach_message
  simp only [show (strContains "Estoy agotado" "agotado"
    || strContains "Estoy agotado" "bloqueada") = true from by decide, if_true]

/-- C8 counterexample: `emptyNameElem` carries a (present) name tag whose
value is the empty string, yet `formatPlace` does not keep that name —
JS `p.tags?.name || default` treats `""` as falsy and substitutes the
park default. -/
theorem formatPlace_empty_name_counterexample :
    tagName emptyNameElem = some ""
    ∧ (formatPlace emptyNameElem PlaceType.park).name ≠ ""
    ∧ (formatPlace emptyNameElem PlaceType.park).name = "Parque sin nombre" := by
  refine ⟨rfl, ?_, rfl⟩
  decide

/-- C8 (amended): a record lacking a name tag, or whose name tag is the
empty string, receives the fixed default name for its category; a record
with a non-empty name tag keeps that name. -/
theorem formatPlace_name_defaulting (p : OsmElement) (ty : PlaceType) :
    ((tagName p = none ∨ tagName p = some "") →
      (formatPlace p ty).name = defaultName ty)
    ∧ (∀ s : String, tagName p = some s → s ≠ "" →
        (formatPlace p ty).name = s) := by
  constructor
  · rintro (h | h) <;> simp [formatPlace, jsOrStr, h]
  · intro s hs hne
    simp [formatPlace, jsOrStr, hs, hne]

/-- Witness for C8 (amended): a missing name tag, an empty name tag and
a non-empty name tag, each at a concrete element. -/
theorem formatPlace_name_defaulting_witness :
    (formatPlace centerZeroElem PlaceType.park).name = defaultName PlaceType.park
    ∧ (formatPlace emptyNameElem PlaceType.quiet_cafe).name
        = defaultName PlaceType.quiet_cafe
    ∧ (formatPlace namedElem PlaceType.park).name = "Central" :=
  ⟨(formatPlace_name_defaulting centerZeroElem PlaceType.park).1 (Or.inl rfl),
   (formatPlace_name_defaulting emptyNameElem PlaceType.quiet_cafe).1 (Or.inr rfl),
   (formatPlace_name_defaulting namedElem PlaceType.park).2 "Central" rfl
     (by decide)⟩

/-- C9 counterexample: with mood "CALMA" the energetic branch is indeed
taken, but the returned message is not the literal template with the
name interpolated verbatim when the name is the empty string — "ahí" is
substituted. -/
theorem coach_energetic_empty_name_counterexample :
    strContains "CALMA" "agotado" = false
    ∧ strContains "CALMA" "bloqueada" = false
    ∧ strContains "CALMA" "calma" = false
    ∧ generate_coach_message (some "") "CALMA" "x"
        = "¡Vamos, ahí! Un poco de aire fresco te vendrá genial. Mira: x."
    ∧ generate_coach_message (some "") "CALMA" "x"
        ≠ "¡Vamos, ! Un poco de aire fresco te vendrá genial. Mira: x." := by
  refine ⟨rfl, rfl, rfl, by decide, by decide⟩

/-- C9 (amended): `generate_coach_message` matches its keywords
case-sensitively — any mood containing no all-lower-case occurrence of
"agotado", "bloqueada" or "calma" (in particular one containing them
only capitalised, such as "CALMA") selects the energetic branch, whose
template interpolates the name (with "ahí" substituted when the name is
absent or empty) and the experience text. -/
theorem coach_case_sensitive_energetic (name : Option String) (mood e : String)
    (h1 : strContains mood "agotado" = false)
    (h2 : strContains mood "bloqueada" = false)
    (h3 : strContains mood "calma" = false) :
    generate_coach_message name mood e
      = "¡Vamos, " ++ jsOrStr name "ahí"
        ++ "! Un poco de aire fresco te vendrá genial. Mira: " ++ e ++ "." := by
  unfold generate_coach_message
  simp [h1, h2, h3]

/-- Witness for C9 (amended) at mood "CALMA" with a non-empty name. -/
theorem coach_case_sensitive_energetic_witness :
    generate_coach_message (some "Ana") "CALMA" "un paseo"
      = "¡Vamos, " ++ jsOrStr (some "Ana") "ahí"
        ++ "! Un poco de aire fresco te vendrá genial. Mira: " ++ "un paseo" ++ "." :=
  coach_case_sensitive_energetic (some "Ana") "CALMA" "un paseo"
    (by decide) (by decide) (by decide)

/-- C10: the `lastWidgetData` slot is replaced wholesale — after a
successful `find_break_spots` call it is exactly the places-only value,
after a successful `generate_walk_route` call exactly the route-only
value (whatever was stored before), and `suggest_soundtrack` and
`generate_coach_message` leave it unchanged. -/
theorem lastWidgetData_replaced_wholesale
    (parkNet cafeNet : NetResult) (st : WidgetData) (a : FindBreakSpotsArgs)
    (lat lng : ℚ) (t : ℤ) (pref : Option String)
    (mood : String) (name : Option String) (m e : String) :
    (handleToolCall parkNet cafeNet "find_break_spots"
        (ToolArgs.forFind a) st).1
      = WidgetData.withPlaces (find_break_spots parkNet cafeNet a).1
    ∧ (handleToolCall parkNet cafeNet "generate_walk_route"
        (ToolArgs.forRoute lat lng t pref) st).1
      = WidgetData.withRoute (generate_walk_route lat lng t).1
    ∧ (handleToolCall parkNet cafeNet "suggest_soundtrack"
        (ToolArgs.forSoundtrack mood) st).1 = st
    ∧ (handleToolCall parkNet cafeNet "generate_coach_message"
        (ToolArgs.forCoach name m e) st).1 = st :=
  ⟨rfl, rfl, rfl, rfl⟩

end MicroBreaks
